import Mathlib

/-!
Verification of the Dispatch repository's Slack call wrapper
(`src/dispatch/plugins/dispatch_slack/service.py`) and GenAI token budgeter
(`src/dispatch/ai/service.py`), as a shallow embedding in Lean 4.
-/

namespace Dispatch

/- ## Slack call wrapper: exceptions and retry classification -/

/--
Exceptions that `make_call` can observe from `client.api_call`.
`slackApiError code retryAfter` embeds `slack_sdk.errors.SlackApiError` with
`e.response["error"] = code` and, when `retryAfter = some n`, a
`Retry-After` response header whose `int(...)` parse is `n`.
`timeoutError` embeds the builtin `TimeoutError`, `requestsTimeout` embeds
`requests.Timeout`, and `other` stands for every other exception type.
-/
inductive SlackExc where
  | slackApiError (errorCode : String) (retryAfter : Option Nat)
  | timeoutError
  | requestsTimeout
  | other
  deriving DecidableEq, Repr

/--
Modelled from the spec: the values of the `SlackAPIErrorCode` enumeration
(`dispatch_slack/enums.py` is not among the sources; only its call sites in
`service.py` and the spec's "terminal error code" examples are). The members
listed are those referenced by `service.py` plus the spec's
"channel already archived" example. Every theorem below that quantifies over
this set is structural in its contents.
-/
def terminalErrorCodes : List String :=
  [ "already_archived"
  , "channel_not_archived"
  , "channel_not_found"
  , "users_not_found"
  , "user_in_channel"
  , "already_in_channel"
  , "user_not_in_channel"
  ]

/--
Embedding of `should_retry` (service.py:110-129): a `match` that first tests
`SlackApiError` (retry iff the error code is not a `SlackAPIErrorCode`
member), then `TimeoutError() | Timeout()` (always retry), and defaults to
no retry.
-/
def should_retry (exception : SlackExc) : Bool :=
  match exception with
  | .slackApiError code _ => !(terminalErrorCodes.contains code)
  | .timeoutError => true
  | .requestsTimeout => true
  | .other => false

/--
Embedding of tenacity's `RetryCallState` as used by `get_wait_time`:
the 1-based number of the attempt that just finished and
`outcome.exception()` (`none` when the attempt succeeded).
-/
structure RetryCallState where
  attempt_number : Nat
  outcome : Option SlackExc
  deriving DecidableEq, Repr

/--
Embedding of tenacity's `wait_exponential(multiplier=1, min=1, max=60)`
applied to a retry state: `max(max(0, min), min(multiplier * 2**(n-1), max))`
where `n` is the attempt number.
-/
def waitExponential (attempt_number : Nat) : Nat :=
  max (max 0 1) (min (1 * 2 ^ (attempt_number - 1)) 60)

/--
Embedding of `get_wait_time` (service.py:132-149): if the failed attempt's
exception is a `SlackApiError` whose response carries a `Retry-After`
header, return that header's integer value; otherwise defer to
`wait_exponential(multiplier=1, min=1, max=60)`.
-/
def get_wait_time (retry_state : RetryCallState) : Nat :=
  match retry_state.outcome with
  | some (.slackApiError _ (some n)) => n
  | _ => waitExponential retry_state.attempt_number

/--
Retry-After header of an attempt outcome, if any: `some n` exactly when the
outcome is a `SlackApiError` carrying the header.
-/
def retryAfterOf : Option SlackExc → Option Nat
  | some (.slackApiError _ ra) => ra
  | _ => none

/- ## Slack call wrapper: the tenacity-decorated `make_call` -/

/--
Result of a decorated `make_call` invocation. `success r` is a normal
return; `rawExc e` means the exception `e` itself was raised to the caller
(the non-retryable path, where tenacity re-raises the attempt's exception);
`retryError e` means tenacity raised its `RetryError` wrapper around the
final attempt, whose exception is `e` (the exhaustion path under the
decorator's default `reraise=False`).
-/
inductive RetryResult (α : Type) where
  | success (r : α)
  | rawExc (e : SlackExc)
  | retryError (e : SlackExc)
  deriving DecidableEq, Repr

/--
Embedding of tenacity's retry loop as configured on `make_call`
(service.py:152-156): after each attempt, if the outcome is an exception
accepted by `retry_if_exception(should_retry)` the loop consults
`stop_after_attempt(5)` — raising `RetryError(last_attempt)` once 5 attempts
have run (the decorator does not set `reraise=True`) — and otherwise waits
and retries; an outcome rejected by the retry predicate is returned, which
for an exception means re-raising that exception itself. `f i` is the
outcome of the `i`-th attempt of the wrapped body (the `client.api_call`
transport, external to this repository); `attempt` is 1-based and
`retriesLeft` counts the retries still allowed. Returns the overall outcome
together with the number of the attempt on which the loop stopped, i.e. the
total number of attempts made.
-/
def retryLoop {α : Type} (f : Nat → Except SlackExc α) :
    Nat → Nat → RetryResult α × Nat
  | attempt, retriesLeft =>
    match f attempt with
    | .ok r => (.success r, attempt)
    | .error e =>
      if should_retry e then
        match retriesLeft with
        | 0 => (.retryError e, attempt)
        | n + 1 => retryLoop f (attempt + 1) n
      else (.rawExc e, attempt)

/--
Embedding of the decorated `make_call` (service.py:152-189): the tenacity
loop started at attempt 1 with `stop_after_attempt(5)`, i.e. 4 retries after
the first attempt. The body's endpoint dispatch (GET vs POST) and logging
are transport/side effects external to the proved properties; each attempt's
outcome is the parameter `f`.
-/
def make_call {α : Type} (f : Nat → Except SlackExc α) : RetryResult α × Nat :=
  retryLoop f 1 4

/- ## Cached identity-scoped lookups: `WebClientWrapper` and the lru caches -/

/--
Value of a `WebClient`'s `token` attribute (`Optional[str]` in slack_sdk):
either a Python `str` or `None`.
-/
inductive PyToken where
  | str (s : String)
  | noneVal
  deriving DecidableEq, Repr

/--
Python type tags of `PyToken` values, for modelling `type(x)`.
-/
inductive PyType where
  | strType
  | noneType
  deriving DecidableEq, Repr

/--
The `type(...)` of a token value.
-/
def pyTypeOf : PyToken → PyType
  | .str _ => .strType
  | .noneVal => .noneType

/--
CPython's `hash` of a type object: some fixed integer per (immortal) type
object, modelled as an arbitrary fixed assignment.
-/
def pyTypeHash : PyType → Nat
  | .strType => 17
  | .noneType => 23

/--
Embedding of `slack_sdk.web.client.WebClient` as far as the wrapper sees it:
its `token` attribute. `objId` stands for the object's identity (`id(...)`)
so that two distinct client objects can share a token; no method of the
embedded code depends on it.
-/
structure WebClient where
  token : PyToken
  objId : Nat
  deriving DecidableEq, Repr

/--
Embedding of `WebClientWrapper` (service.py:29-43): holds the wrapped
client (field named `_client` in the source).
-/
structure WebClientWrapper where
  client : WebClient
  deriving DecidableEq, Repr

/--
Embedding of `WebClientWrapper.__eq__` (service.py:39-40):
`other._client.token == self._client.token`, i.e. token-value equality.
-/
def wrapperEq (self other : WebClientWrapper) : Bool :=
  other.client.token == self.client.token

/--
Embedding of `WebClientWrapper.__hash__` (service.py:42-43):
`hash(type(self._client.token))` — the hash of the token's *type* object,
not of its value.
-/
def wrapperHash (self : WebClientWrapper) : Nat :=
  pyTypeHash (pyTypeOf self.client.token)

/--
State of one `functools.lru_cache()` table keyed by `(wrapper, arg)` pairs,
together with a count of the remote calls made so far. (The decorator's
default `maxsize=128` eviction never triggers in the two-entry scenarios
proved below, so the table is kept unbounded here.)
-/
structure CacheState (β : Type) where
  entries : List ((WebClientWrapper × String) × β)
  remoteCalls : Nat

/--
Empty cache, as at process start.
-/
def CacheState.empty {β : Type} : CacheState β := ⟨[], 0⟩

/--
Cache probe: `lru_cache` recognises a hit when a stored key compares equal
(`==`) to the probe key — for the `(wrapper, arg)` tuple this is
`WebClientWrapper.__eq__` on the first component (token-value equality) and
string equality on the second.
-/
def cacheFind {β : Type} (entries : List ((WebClientWrapper × String) × β))
    (key : WebClientWrapper × String) : Option β :=
  (entries.find? (fun e => wrapperEq e.1.1 key.1 && e.1.2 == key.2)).map (·.2)

/--
Embedding of the `lru_cache`-decorated `_get_user_info_by_id`
(service.py:210-212) with the cache state explicit: on a hit, return the
cached result with no remote call; on a miss, perform the remote
`users.info` call (the external transport, parameter `remote`), store the
result under `(wrapper, user_id)`, and count the call. The other
identity-scoped lookups (`_get_domain`, `_get_user_info_by_email`, ...)
share this exact shape.
-/
def getUserInfoById {β : Type} (remote : WebClient → String → β)
    (st : CacheState β) (wrapper : WebClientWrapper) (user_id : String) :
    β × CacheState β :=
  match cacheFind st.entries (wrapper, user_id) with
  | some v => (v, st)
  | none =>
    let v := remote wrapper.client user_id
    (v, ⟨st.entries ++ [((wrapper, user_id), v)], st.remoteCalls + 1⟩)

/- ## GenAI token budgeter (`src/dispatch/ai/service.py`) -/

/--
Embedding of Python's `str.lower()` for the ASCII model names involved:
lowercase each character. (Python lowercases per Unicode; every key of the
static model table is ASCII, so the ASCII `Char.toLower` is exact here.)
-/
def pyLower (s : String) : String :=
  String.mk (s.data.map Char.toLower)

/--
Embedding of `get_model_token_limit` (ai/service.py:30-58) at its default
`buffer_percentage=0.05`: look the lowercased model name up in the static
table, default to 128000, and apply `int(raw_limit * (1 - 0.05))`. At every
raw limit the table (or the default) can produce — 128000 and 200000 — the
double-precision product `raw * 0.95` rounds to the exact integer value, so
the truncation is embedded as exact arithmetic `raw * 95 / 100`.
-/
def get_model_token_limit (model_name : String) : Nat :=
  let default_max_tokens := 128000
  let model_token_limits : List (String × Nat) :=
    [ ("gpt-4o", 128000)
    , ("claude-3-5-sonnet-20241022", 200000)
    , ("claude-3-7-sonnet-20250219", 200000)
    ]
  let raw_limit := (model_token_limits.lookup (pyLower model_name)).getD default_max_tokens
  raw_limit * 95 / 100

/--
Raw (pre-buffer) context size of a model: the static table's entry for the
lowercased name, or the 128000 default. Stated separately so theorems can
relate the code's arithmetic to the spec's "raw size × 0.95, truncated".
-/
def rawContextSize (model_name : String) : Nat :=
  (([ ("gpt-4o", 128000)
    , ("claude-3-5-sonnet-20241022", 200000)
    , ("claude-3-7-sonnet-20250219", 200000)
    ] : List (String × Nat)).lookup (pyLower model_name)).getD 128000

/--
A tiktoken `Encoding`: its `encode` and `decode` methods. The tokenizer
itself is vendor code; every theorem below is parametric in it.
-/
structure Encoding where
  encode : String → List Nat
  decode : List Nat → String

/--
Embedding of `num_tokens_from_string` (ai/service.py:61-84): tokenize the
message with the encoding tiktoken resolves for the model (or the
`o200k_base` fallback) and return the token list, its length, and the
encoding. The tiktoken resolution is external; it is the parameter
`encodingForModel`.
-/
def num_tokens_from_string (encodingForModel : String → Encoding)
    (message : String) (model : String) : List Nat × Nat × Encoding :=
  let encoding := encodingForModel model
  let tokenized_message := encoding.encode message
  (tokenized_message, tokenized_message.length, encoding)

/--
Python's slice `l[:j]` for an `int` bound `j`: a negative bound counts from
the end (clamped at 0), a nonnegative bound takes a prefix (clamped at the
length).
-/
def pySliceUpTo {α : Type} (l : List α) (j : Int) : List α :=
  if j < 0 then l.take ((l.length + j).toNat) else l.take j.toNat

/--
Embedding of `truncate_prompt` (ai/service.py:87-108):
`excess_tokens = num_tokens - model_token_limit`, then
`tokenized_prompt[:-excess_tokens]` decoded back to text (the warning log
is a side effect with no bearing on the result).
-/
def truncate_prompt (tokenized_prompt : List Nat) (num_tokens : Nat)
    (encoding : Encoding) (model_token_limit : Nat) : String :=
  let excess_tokens : Int := (num_tokens : Int) - (model_token_limit : Int)
  let truncated_tokenized_prompt := pySliceUpTo tokenized_prompt (-excess_tokens)
  encoding.decode truncated_tokenized_prompt

/--
Embedding of `prepare_prompt_for_model` (ai/service.py:111-120): tokenize,
compute the model's safe limit, and truncate only when the token count
strictly exceeds the limit.
-/
def prepare_prompt_for_model (encodingForModel : String → Encoding)
    (prompt : String) (model_name : String) : String :=
  let r := num_tokens_from_string encodingForModel prompt model_name
  let tokenized_prompt := r.1
  let num_tokens := r.2.1
  let encoding := r.2.2
  let model_token_limit := get_model_token_limit model_name
  if num_tokens > model_token_limit then
    truncate_prompt tokenized_prompt num_tokens encoding model_token_limit
  else prompt

/--
A concrete tokenizer used to instantiate the parametric theorems: `"q"`
tokenizes to 121601 tokens (one over the gpt-4o safe limit), every other
string to 121600 tokens, and decoding always yields `"y"`.
-/
def encConcrete : Encoding :=
  ⟨fun s => if s = "q" then List.replicate 121601 0 else List.replicate 121600 0,
   fun _ => "y"⟩

/- ## Helper lemmas -/

/--
The retry loop never runs more attempts than the current attempt number
plus the retries still allowed.
-/
theorem retryLoop_attempts_le {α : Type} (f : Nat → Except SlackExc α) :
    ∀ (retriesLeft attempt : Nat),
      (retryLoop f attempt retriesLeft).2 ≤ attempt + retriesLeft := by
  intro retriesLeft
  induction retriesLeft with
  | zero =>
    intro attempt
    unfold retryLoop
    cases f attempt with
    | ok r => simp
    | error e =>
      by_cases h : should_retry e = true
      · simp [h]
      · simp [h]
  | succ n ih =>
    intro attempt
    unfold retryLoop
    cases f attempt with
    | ok r => simp
    | error e =>
      by_cases h : should_retry e = true
      · have := ih (attempt + 1)
        simp only [h, if_true]
        omega
      · simp [h]

/--
Every power of two is at least one, so tenacity's `min=1` clamp is inert on
the exponential branch.
-/
theorem waitExponential_eq (a : Nat) :
    waitExponential a = min (2 ^ (a - 1)) 60 := by
  have h1 : 1 ≤ 2 ^ (a - 1) := Nat.one_le_two_pow
  simp only [waitExponential, one_mul]
  omega

/- ## Claims -/

/--
Claim C2: `should_retry` returns true for every timeout exception, true for
a `SlackApiError` whose code is not in the terminal
`SlackAPIErrorCode` set, false for a `SlackApiError` whose code is in that
set, and false for every other exception type.
-/
theorem claim_C2 :
    (∀ e : SlackExc, (e = .timeoutError ∨ e = .requestsTimeout) →
        should_retry e = true) ∧
    (∀ (code : String) (ra : Option Nat), code ∉ terminalErrorCodes →
        should_retry (.slackApiError code ra) = true) ∧
    (∀ (code : String) (ra : Option Nat), code ∈ terminalErrorCodes →
        should_retry (.slackApiError code ra) = false) ∧
    should_retry .other = false := by
  refine ⟨?_, ?_, ?_, rfl⟩
  · rintro e (rfl | rfl) <;> rfl
  · intro code ra h
    simp [should_retry, h]
  · intro code ra h
    simp [should_retry, h]

/--
Witness for C2 at concrete exceptions: a timeout, a non-terminal
`ratelimited` code, and the terminal `channel_not_archived` code.
-/
theorem claim_C2_witness :
    should_retry .timeoutError = true ∧
    should_retry (.slackApiError "ratelimited" none) = true ∧
    should_retry (.slackApiError "channel_not_archived" none) = false :=
  ⟨claim_C2.1 _ (Or.inl rfl),
   claim_C2.2.1 "ratelimited" none (by decide),
   claim_C2.2.2.1 "channel_not_archived" none (by decide)⟩

/--
Claim C3: `get_wait_time` returns exactly the server-supplied `Retry-After`
value when the failed attempt's exception is a `SlackApiError` carrying
that header; otherwise it returns the exponential backoff
`min (2 ^ (attempt - 1)) 60`, which starts at 1 second on the first attempt
and doubles each attempt, capped at 60 seconds.
-/
theorem claim_C3 (rs : RetryCallState) (h1 : 1 ≤ rs.attempt_number) :
    (∀ (code : String) (n : Nat),
        rs.outcome = some (.slackApiError code (some n)) →
        get_wait_time rs = n) ∧
    (retryAfterOf rs.outcome = none →
        get_wait_time rs = min (2 ^ (rs.attempt_number - 1)) 60) ∧
    waitExponential 1 = 1 ∧
    (∀ a, 1 ≤ a → waitExponential (a + 1) = min (2 * waitExponential a) 60) := by
  refine ⟨?_, ?_, by decide, ?_⟩
  · intro code n h
    simp [get_wait_time, h]
  · intro h
    rw [← waitExponential_eq]
    rcases hout : rs.outcome with _ | e
    · simp [get_wait_time, hout]
    · cases e with
      | slackApiError code ra =>
        cases ra with
        | none => simp [get_wait_time, hout]
        | some n => rw [hout] at h; simp [retryAfterOf] at h
      | timeoutError => simp [get_wait_time, hout]
      | requestsTimeout => simp [get_wait_time, hout]
      | other => simp [get_wait_time, hout]
  · intro a ha
    rw [waitExponential_eq, waitExponential_eq]
    have h2 : 2 ^ (a + 1 - 1) = 2 * 2 ^ (a - 1) := by
      rcases Nat.exists_eq_add_of_le ha with ⟨b, rfl⟩
      rw [Nat.add_comm 1 b]
      simp [Nat.pow_succ, Nat.mul_comm]
    rw [h2]
    rcases Nat.le_total (2 ^ (a - 1)) 60 with h | h <;> omega

/--
Witness for C3: a first-attempt `SlackApiError` carrying `Retry-After: 30`
waits exactly 30 seconds, and a header-less third-attempt failure waits
`min (2 ^ 2) 60 = 4` seconds.
-/
theorem claim_C3_witness :
    get_wait_time ⟨1, some (.slackApiError "ratelimited" (some 30))⟩ = 30 ∧
    get_wait_time ⟨3, none⟩ = 4 := by
  constructor
  · exact (claim_C3 ⟨1, some (.slackApiError "ratelimited" (some 30))⟩
      (by decide)).1 "ratelimited" 30 rfl
  · have h := (claim_C3 ⟨3, none⟩ (by decide)).2.1 rfl
    simpa using h

/--
Claim C7: a `SlackApiError` whose code is terminal on the first attempt
means exactly one attempt is made (the loop stops at attempt 1 with the
exception itself), and when every attempt fails with a timeout the loop
makes at most 5 attempts before the failure propagates.
-/
theorem claim_C7 :
    (∀ (α : Type) (f : Nat → Except SlackExc α) (code : String)
        (ra : Option Nat), code ∈ terminalErrorCodes →
        f 1 = .error (.slackApiError code ra) →
        make_call f = (.rawExc (.slackApiError code ra), 1)) ∧
    (∀ (α : Type) (f : Nat → Except SlackExc α) (g : Nat → SlackExc),
        (∀ i, f i = .error (g i)) →
        (∀ i, g i = .timeoutError ∨ g i = .requestsTimeout) →
        (make_call f).2 ≤ 5) := by
  constructor
  · intro α f code ra hcode hf
    have hsr : should_retry (.slackApiError code ra) = false := by
      simp [should_retry, hcode]
    unfold make_call retryLoop
    rw [hf]
    simp [hsr]
  · intro α f g hf hg
    have h := retryLoop_attempts_le f 4 1
    simpa [make_call] using h

/--
Witness for C7: a terminal `channel_not_archived` failure stops after one
attempt, and an always-timing-out call makes at most 5 attempts.
-/
theorem claim_C7_witness :
    make_call (fun _ => (Except.error (.slackApiError "channel_not_archived" none) :
        Except SlackExc Unit)) = (.rawExc (.slackApiError "channel_not_archived" none), 1) ∧
    (make_call (fun _ => (Except.error .timeoutError : Except SlackExc Unit))).2 ≤ 5 := by
  constructor
  · exact claim_C7.1 Unit _ "channel_not_archived" none (by decide) rfl
  · exact claim_C7.2 Unit _ (fun _ => .timeoutError) (fun _ => rfl) (fun _ => Or.inl rfl)

/--
Claim C1 fails on the code: with the decorator's default `reraise=False`,
exhausting the 5 attempts raises tenacity's `RetryError` wrapper around the
last attempt, not the last exception itself. Concretely, a call that times
out on all 5 attempts ends with `retryError timeoutError`, which differs
from raising the bare `timeoutError`.
-/
theorem claim_C1_counterexample :
    make_call (fun _ => (Except.error .timeoutError : Except SlackExc Unit)) =
      (.retryError .timeoutError, 5) ∧
    (make_call (fun _ => (Except.error .timeoutError : Except SlackExc Unit))).1 ≠
      .rawExc .timeoutError := by
  decide

/--
Claim C1 as amended: for every call whose 5 attempts all fail with
retryable exceptions, what reaches the caller after exhaustion is
tenacity's `RetryError` wrapping the last-seen exception (the exception of
attempt 5), made on exactly 5 attempts — not the last exception raised
bare.
-/
theorem claim_C1_amended (α : Type) (f : Nat → Except SlackExc α)
    (g : Nat → SlackExc) (hf : ∀ i, f i = .error (g i))
    (hr : ∀ i, should_retry (g i) = true) :
    make_call f = (.retryError (g 5), 5) := by
  simp [make_call, retryLoop, hf 1, hf 2, hf 3, hf 4, hf 5,
    hr 1, hr 2, hr 3, hr 4, hr 5]

/--
Witness for the amended C1: an always-timing-out call ends as a
`RetryError` around the fifth timeout.
-/
theorem claim_C1_witness :
    make_call (fun _ => (Except.error .timeoutError : Except SlackExc Unit)) =
      (.retryError .timeoutError, 5) :=
  claim_C1_amended Unit _ (fun _ => .timeoutError) (fun _ => rfl) (fun _ => rfl)

/--
Arithmetic bridge for C4: the code's `raw * 95 / 100` natural division
equals the spec's "multiply by 0.95 and truncate" read over the rationals.
-/
theorem mul_95_div_100_eq_floor (r : Nat) :
    r * 95 / 100 = ⌊(r : ℚ) * 0.95⌋₊ := by
  have h : (r : ℚ) * 0.95 = ((r * 95 : ℕ) : ℚ) / ((100 : ℕ) : ℚ) := by
    push_cast
    norm_num
    ring
  rw [h, Nat.floor_div_nat, Nat.floor_natCast]

/--
The `prepare_prompt_for_model` pipeline, unfolded: truncate exactly when
the tokenized length strictly exceeds the model's safe limit.
-/
theorem prepare_prompt_for_model_eq (E : String → Encoding) (p m : String) :
    prepare_prompt_for_model E p m =
      if ((E m).encode p).length > get_model_token_limit m then
        truncate_prompt ((E m).encode p) ((E m).encode p).length (E m)
          (get_model_token_limit m)
      else p := rfl

/--
When called with the token list's true length and a smaller limit,
`truncate_prompt` keeps exactly the first `limit` tokens.
-/
theorem truncate_prompt_eq_take (enc : Encoding) (t : List Nat) (L : Nat)
    (h : L < t.length) :
    truncate_prompt t t.length enc L = enc.decode (t.take L) := by
  simp only [truncate_prompt, pySliceUpTo]
  have h1 : (-(((t.length : Nat) : ℤ) - ((L : Nat) : ℤ))) < 0 := by omega
  rw [if_pos h1]
  have h2 : (((t.length : Nat) : ℤ) + (-(((t.length : Nat) : ℤ) - ((L : Nat) : ℤ)))).toNat
      = L := by omega
  rw [h2]

/--
Claim C4: `get_model_token_limit "gpt-4o"` is 121600, an unknown model name
falls back to the 128000 default and also yields 121600, and for every
model name the result is the table's raw context size (or the default)
multiplied by 0.95 and truncated to an integer.
-/
theorem claim_C4 :
    get_model_token_limit "gpt-4o" = 121600 ∧
    get_model_token_limit "unknown-model" = 121600 ∧
    ∀ model_name : String,
      get_model_token_limit model_name
        = ⌊(rawContextSize model_name : ℚ) * 0.95⌋₊ := by
  refine ⟨by decide, by decide, ?_⟩
  intro m
  have h : get_model_token_limit m = rawContextSize m * 95 / 100 := rfl
  rw [h, mul_95_div_100_eq_floor]

/--
Claim C5: a prompt tokenizing to exactly the model's safe limit is returned
unmodified by `prepare_prompt_for_model`, and a prompt tokenizing to one
token over the limit is truncated by removing exactly one token from the
end of the token sequence before decoding.
-/
theorem claim_C5 (E : String → Encoding) (p q m : String)
    (hp : ((E m).encode p).length = get_model_token_limit m)
    (hq : ((E m).encode q).length = get_model_token_limit m + 1) :
    prepare_prompt_for_model E p m = p ∧
    prepare_prompt_for_model E q m
      = (E m).decode (((E m).encode q).dropLast) := by
  constructor
  · rw [prepare_prompt_for_model_eq, if_neg (by omega)]
  · have hgt : get_model_token_limit m < ((E m).encode q).length := by omega
    rw [prepare_prompt_for_model_eq, if_pos hgt,
      truncate_prompt_eq_take _ _ _ hgt, List.dropLast_eq_take]
    have h2 : ((E m).encode q).length - 1 = get_model_token_limit m := by omega
    rw [h2]

/--
Witness for C5 with the concrete tokenizer `encConcrete` on model
`gpt-4o`: `"p"` (121600 tokens, exactly the safe limit) is unchanged and
`"q"` (121601 tokens) loses its last token.
-/
theorem claim_C5_witness :
    prepare_prompt_for_model (fun _ => encConcrete) "p" "gpt-4o" = "p" ∧
    prepare_prompt_for_model (fun _ => encConcrete) "q" "gpt-4o"
      = encConcrete.decode ((encConcrete.encode "q").dropLast) := by
  have hP : encConcrete.encode "p" = List.replicate 121600 0 := by
    show (if ("p" : String) = "q" then List.replicate 121601 0
        else List.replicate 121600 0) = _
    rw [if_neg (by decide)]
  have hQ : encConcrete.encode "q" = List.replicate 121601 0 := by
    show (if ("q" : String) = "q" then List.replicate 121601 0
        else List.replicate 121600 0) = _
    rw [if_pos rfl]
  exact claim_C5 (fun _ => encConcrete) "p" "q" "gpt-4o"
    (by show (encConcrete.encode "p").length = _
        rw [hP, List.length_replicate]
        decide)
    (by show (encConcrete.encode "q").length = _
        rw [hQ, List.length_replicate]
        decide)

/--
Claim C6: a prompt exceeding the safe budget by `k > 0` tokens is truncated
by removing exactly the last `k` tokens and decoding the remainder, and —
assuming decode/re-encode preserves the truncated sequence's length — the
returned string tokenizes to at most the safe budget.
-/
theorem claim_C6 (E : String → Encoding) (p m : String) (k : Nat)
    (hk : 0 < k)
    (h : ((E m).encode p).length = get_model_token_limit m + k)
    (hround : ((E m).encode ((E m).decode
          (((E m).encode p).take (get_model_token_limit m)))).length
        = (((E m).encode p).take (get_model_token_limit m)).length) :
    prepare_prompt_for_model E p m
      = (E m).decode (((E m).encode p).take (((E m).encode p).length - k)) ∧
    ((E m).encode (prepare_prompt_for_model E p m)).length
      ≤ get_model_token_limit m := by
  have hgt : get_model_token_limit m < ((E m).encode p).length := by omega
  have heq : prepare_prompt_for_model E p m
      = (E m).decode (((E m).encode p).take (get_model_token_limit m)) := by
    rw [prepare_prompt_for_model_eq, if_pos hgt, truncate_prompt_eq_take _ _ _ hgt]
  constructor
  · have h2 : ((E m).encode p).length - k = get_model_token_limit m := by omega
    rw [h2, heq]
  · rw [heq, hround, List.length_take]
    exact min_le_left _ _

/--
Witness for C6 with the concrete tokenizer `encConcrete` on model
`gpt-4o`: `"q"` tokenizes to 121601 tokens (excess 1); its decode/re-encode
preserves length, and the result stays within the 121600 budget.
-/
theorem claim_C6_witness :
    prepare_prompt_for_model (fun _ => encConcrete) "q" "gpt-4o"
      = encConcrete.decode
          ((encConcrete.encode "q").take ((encConcrete.encode "q").length - 1)) ∧
    (encConcrete.encode (prepare_prompt_for_model (fun _ => encConcrete) "q" "gpt-4o")).length
      ≤ get_model_token_limit "gpt-4o" := by
  have hlimit : get_model_token_limit "gpt-4o" = 121600 := by decide
  have hQ : encConcrete.encode "q" = List.replicate 121601 0 := by
    show (if ("q" : String) = "q" then List.replicate 121601 0
        else List.replicate 121600 0) = _
    rw [if_pos rfl]
  have hY : encConcrete.encode "y" = List.replicate 121600 0 := by
    show (if ("y" : String) = "q" then List.replicate 121601 0
        else List.replicate 121600 0) = _
    rw [if_neg (by decide)]
  have hD : ∀ l, encConcrete.decode l = "y" := fun _ => rfl
  exact claim_C6 (fun _ => encConcrete) "q" "gpt-4o" 1 (by decide)
    (by show (encConcrete.encode "q").length = _
        rw [hQ, List.length_replicate, hlimit])
    (by show (encConcrete.encode (encConcrete.decode
            ((encConcrete.encode "q").take (get_model_token_limit "gpt-4o")))).length
          = ((encConcrete.encode "q").take (get_model_token_limit "gpt-4o")).length
        rw [hD, hY, hQ, hlimit, List.take_replicate,
          List.length_replicate, List.length_replicate]
        omega)

/--
Claim C9: `truncate_prompt` invoked with `num_tokens` equal to
`model_token_limit` slices with the zero-length bound `[:-0] = [:0]` and
returns the decode of the empty token sequence, while the public
`prepare_prompt_for_model` only truncates when the token count strictly
exceeds the limit, so a prompt at or under the limit is returned unchanged
and the empty-result branch is unreachable through the public interface.
-/
theorem claim_C9 (enc : Encoding) (t : List Nat) (n : Nat)
    (E : String → Encoding) (p m : String)
    (h : ((E m).encode p).length ≤ get_model_token_limit m) :
    truncate_prompt t n enc n = enc.decode [] ∧
    prepare_prompt_for_model E p m = p := by
  constructor
  · simp only [truncate_prompt, pySliceUpTo]
    have h0 : (-((n : ℤ) - (n : ℤ))) = 0 := by omega
    rw [h0]
    norm_num
  · rw [prepare_prompt_for_model_eq, if_neg (by omega)]

/--
Witness for C9: truncating a 3-token list at limit 3 decodes the empty
sequence, and a 0-token prompt passes through `prepare_prompt_for_model`
untouched.
-/
theorem claim_C9_witness :
    truncate_prompt [1, 2, 3] 3 ⟨fun _ => [], fun _ => ""⟩ 3
      = Encoding.decode ⟨fun _ => [], fun _ => ""⟩ [] ∧
    prepare_prompt_for_model (fun _ => ⟨fun _ => [], fun _ => ""⟩) "a" "gpt-4o" = "a" :=
  claim_C9 ⟨fun _ => [], fun _ => ""⟩ [1, 2, 3] 3
    (fun _ => ⟨fun _ => [], fun _ => ""⟩) "a" "gpt-4o" (by decide)

/--
Claim C8: a second cached lookup with the same argument through a distinct
client object whose credential token is equal returns the first lookup's
cached result without another remote call, while a client with a different
token triggers a fresh remote call — the cache keys compare by credential
identity, not object identity.
-/
theorem claim_C8 (β : Type) (remote : WebClient → String → β)
    (c1 c2 c3 : WebClient) (uid : String)
    (hObj : c1.objId ≠ c2.objId) (hEq : c2.token = c1.token)
    (hNe : c3.token ≠ c1.token) :
    (getUserInfoById remote CacheState.empty ⟨c1⟩ uid).2.remoteCalls = 1 ∧
    (getUserInfoById remote (getUserInfoById remote CacheState.empty ⟨c1⟩ uid).2
        ⟨c2⟩ uid).1
      = (getUserInfoById remote CacheState.empty ⟨c1⟩ uid).1 ∧
    (getUserInfoById remote (getUserInfoById remote CacheState.empty ⟨c1⟩ uid).2
        ⟨c2⟩ uid).2.remoteCalls
      = (getUserInfoById remote CacheState.empty ⟨c1⟩ uid).2.remoteCalls ∧
    (getUserInfoById remote (getUserInfoById remote CacheState.empty ⟨c1⟩ uid).2
        ⟨c3⟩ uid).2.remoteCalls
      = (getUserInfoById remote CacheState.empty ⟨c1⟩ uid).2.remoteCalls + 1 := by
  have h1 : getUserInfoById remote CacheState.empty ⟨c1⟩ uid
      = (remote c1 uid,
         ⟨[((⟨c1⟩, uid), remote c1 uid)], 1⟩) := rfl
  have hb2 : (c2.token == c1.token) = true := beq_iff_eq.mpr hEq
  have hb3 : (c3.token == c1.token) = false := beq_eq_false_iff_ne.mpr hNe
  refine ⟨by rw [h1], ?_, ?_, ?_⟩ <;>
    simp [h1, getUserInfoById, cacheFind, wrapperEq, List.find?, hb2, hb3]

/--
Witness for C8: two distinct client objects sharing token `xoxb-1` hit the
same cache entry; a client with token `xoxb-2` causes a second remote call.
-/
theorem claim_C8_witness :
    (getUserInfoById (fun _ u => u) CacheState.empty ⟨⟨.str "xoxb-1", 1⟩⟩
        "U123").2.remoteCalls = 1 ∧
    (getUserInfoById (fun _ u => u)
        (getUserInfoById (fun _ u => u) CacheState.empty ⟨⟨.str "xoxb-1", 1⟩⟩ "U123").2
        ⟨⟨.str "xoxb-1", 2⟩⟩ "U123").1
      = (getUserInfoById (fun _ u => u) CacheState.empty ⟨⟨.str "xoxb-1", 1⟩⟩ "U123").1 ∧
    (getUserInfoById (fun _ u => u)
        (getUserInfoById (fun _ u => u) CacheState.empty ⟨⟨.str "xoxb-1", 1⟩⟩ "U123").2
        ⟨⟨.str "xoxb-1", 2⟩⟩ "U123").2.remoteCalls
      = (getUserInfoById (fun _ u => u) CacheState.empty ⟨⟨.str "xoxb-1", 1⟩⟩
          "U123").2.remoteCalls ∧
    (getUserInfoById (fun _ u => u)
        (getUserInfoById (fun _ u => u) CacheState.empty ⟨⟨.str "xoxb-1", 1⟩⟩ "U123").2
        ⟨⟨.str "xoxb-2", 3⟩⟩ "U123").2.remoteCalls
      = (getUserInfoById (fun _ u => u) CacheState.empty ⟨⟨.str "xoxb-1", 1⟩⟩
          "U123").2.remoteCalls + 1 :=
  claim_C8 String (fun _ u => u) ⟨.str "xoxb-1", 1⟩ ⟨.str "xoxb-1", 2⟩
    ⟨.str "xoxb-2", 3⟩ "U123" (by decide) rfl (by decide)

/--
Claim C10: `WebClientWrapper.__hash__` depends only on the Python type of
the wrapped token, so wrappers whose tokens share a type hash equally; in
particular wrappers equal under `__eq__` (equal token values) have equal
hashes, preserving the hash/equality contract the lru caches rely on.
-/
theorem claim_C10 :
    (∀ w1 w2 : WebClientWrapper,
        pyTypeOf w1.client.token = pyTypeOf w2.client.token →
        wrapperHash w1 = wrapperHash w2) ∧
    (∀ w1 w2 : WebClientWrapper, wrapperEq w1 w2 = true →
        wrapperHash w1 = wrapperHash w2) := by
  constructor
  · intro w1 w2 h
    simp [wrapperHash, h]
  · intro w1 w2 h
    simp only [wrapperEq, beq_iff_eq] at h
    simp [wrapperHash, h]

/--
Witness for C10: wrappers over different `str` token values hash equally
(type-only hash), and wrappers equal under `__eq__` hash equally.
-/
theorem claim_C10_witness :
    wrapperHash ⟨⟨.str "xoxb-1", 1⟩⟩ = wrapperHash ⟨⟨.str "xoxb-2", 2⟩⟩ ∧
    wrapperHash ⟨⟨.str "xoxb-1", 1⟩⟩ = wrapperHash ⟨⟨.str "xoxb-1", 3⟩⟩ :=
  ⟨claim_C10.1 _ _ rfl, claim_C10.2 _ _ (by decide)⟩

end Dispatch
